import Mathlib

set_option linter.unusedVariables false

/-!
# SmartTravel multi-agent planner — verification of spec claims

Shallow embedding of the SmartTravel agents (concierge, itinerary,
hotel, flight, attraction, budget-optimizer, currency-converter and
disruption agents) from the repository sources, together with theorems
settling the frozen spec claims C1–C10.

Numeric values (Python floats) are modelled as exact rationals; calendar
dates (`datetime.strptime`/`strftime`, `timedelta`) are modelled by a
`Date` structure with proleptic-Gregorian ordinal arithmetic, day
addition being iterated calendar succession.
-/

namespace SmartTravel

/-- Proleptic Gregorian calendar date, the parse of a `YYYY-MM-DD` string. -/
structure Date where
  year : ℕ
  month : ℕ
  day : ℕ
deriving DecidableEq, Repr

/-- Gregorian leap-year rule, as used by `datetime`. -/
def isLeapYear (y : ℕ) : Bool :=
  decide ((y % 4 = 0 ∧ ¬ y % 100 = 0) ∨ y % 400 = 0)

/-- Number of days in a month (0 for an invalid month index). -/
def daysInMonth (y m : ℕ) : ℕ :=
  match m with
  | 1 => 31
  | 2 => if isLeapYear y then 29 else 28
  | 3 => 31
  | 4 => 30
  | 5 => 31
  | 6 => 30
  | 7 => 31
  | 8 => 31
  | 9 => 30
  | 10 => 31
  | 11 => 30
  | 12 => 31
  | _ => 0

/-- Validity check the `datetime` constructor performs (year ≥ MINYEAR = 1,
month in 1..12, day in 1..days-in-month). -/
def isValidDate (d : Date) : Bool :=
  decide (1 ≤ d.year ∧ 1 ≤ d.month ∧ d.month ≤ 12 ∧
    1 ≤ d.day ∧ d.day ≤ daysInMonth d.year d.month)

/-- A date `datetime` accepts. -/
def validDate (d : Date) : Prop := isValidDate d = true

/-- Cumulative day count of the months before month `m` of year `y`
(`_days_before_month` in CPython's `datetime`). -/
def daysBeforeMonth (y m : ℕ) : ℕ :=
  (match m with
   | 1 => 0
   | 2 => 31
   | 3 => 59
   | 4 => 90
   | 5 => 120
   | 6 => 151
   | 7 => 181
   | 8 => 212
   | 9 => 243
   | 10 => 273
   | 11 => 304
   | 12 => 334
   | _ => 0) +
  (if 3 ≤ m ∧ isLeapYear y then 1 else 0)

/-- Proleptic Gregorian ordinal of a date, day 1 being 0001-01-01
(`date.toordinal` / `_ymd2ord` in CPython). -/
def toOrdinal (dt : Date) : ℕ :=
  365 * (dt.year - 1) + (dt.year - 1) / 4 - (dt.year - 1) / 100 +
    (dt.year - 1) / 400 + daysBeforeMonth dt.year dt.month + dt.day

/-- Calendar successor of a date. -/
def nextDay (dt : Date) : Date :=
  if dt.day < daysInMonth dt.year dt.month then ⟨dt.year, dt.month, dt.day + 1⟩
  else if dt.month < 12 then ⟨dt.year, dt.month + 1, 1⟩
  else ⟨dt.year + 1, 1, 1⟩

/-- Embedding of `date + timedelta(days := n)`, modelled as `n`-fold calendar succession. -/
def addDays (dt : Date) (n : ℕ) : Date :=
  nextDay^[n] dt

/-- Embedding of `str.split` on a single separator character (the semantics of
splitting a `YYYY-MM-DD` string on `"-"`). -/
def splitOnChar (c : Char) : List Char → List (List Char)
  | [] => [[]]
  | x :: xs =>
    match splitOnChar c xs with
    | [] => if x = c then [[], [x]] else [[x]]
    | y :: ys => if x = c then [] :: y :: ys else (x :: y) :: ys

/-- Numeric value of a digit string. -/
def digitsVal (cs : List Char) : ℕ :=
  cs.foldl (fun acc c => 10 * acc + (c.toNat - 48)) 0

/-- Parse a string accepted by `datetime.strptime(s, "%Y-%m-%d")`:
a 4-digit year field, 1–2 digit month and day fields separated by dashes,
denoting a valid calendar date. Returns `none` where `strptime` raises. -/
def parseDate (s : String) : Option Date :=
  match splitOnChar '-' s.data with
  | [ys, ms, ds] =>
    if ys.length = 4 ∧ ys.all Char.isDigit ∧
       1 ≤ ms.length ∧ ms.length ≤ 2 ∧ ms.all Char.isDigit ∧
       1 ≤ ds.length ∧ ds.length ≤ 2 ∧ ds.all Char.isDigit then
      if isValidDate ⟨digitsVal ys, digitsVal ms, digitsVal ds⟩ then
        some ⟨digitsVal ys, digitsVal ms, digitsVal ds⟩
      else none
    else none
  | _ => none

/-- Decimal rendering of `n` left-padded with zeros to `w` digits. -/
def padNum (n w : ℕ) : String :=
  let s := toString n
  String.mk (List.replicate (w - s.length) '0') ++ s

/-- Embedding of `date.strftime("%Y-%m-%d")`. -/
def formatDate (dt : Date) : String :=
  padNum dt.year 4 ++ "-" ++ padNum dt.month 2 ++ "-" ++ padNum dt.day 2

/-- Embedding of `TravelConcierge._calculate_duration`: parse both dates and return
`(end - start).days + 1`; `none` models the `ValueError` path. -/
def calculate_duration (start_date end_date : String) : Option ℤ := do
  let s ← parseDate start_date
  let e ← parseDate end_date
  pure ((toOrdinal e : ℤ) - (toOrdinal s : ℤ) + 1)

lemma validDate_iff (d : Date) :
    validDate d ↔ 1 ≤ d.year ∧ 1 ≤ d.month ∧ d.month ≤ 12 ∧
      1 ≤ d.day ∧ d.day ≤ daysInMonth d.year d.month := by
  simp [validDate, isValidDate]

lemma validDate_mk (y m dd : ℕ) :
    validDate ⟨y, m, dd⟩ ↔ 1 ≤ y ∧ 1 ≤ m ∧ m ≤ 12 ∧
      1 ≤ dd ∧ dd ≤ daysInMonth y m := by
  simp [validDate, isValidDate]

lemma daysInMonth_pos (y m : ℕ) (h1 : 1 ≤ m) (h2 : m ≤ 12) :
    1 ≤ daysInMonth y m := by
  interval_cases m <;> simp only [daysInMonth] <;>
    first
    | omega
    | (split_ifs <;> omega)

lemma nextDay_valid {d : Date} (h : validDate d) : validDate (nextDay d) := by
  obtain ⟨y, m, dd⟩ := d
  rw [validDate_mk] at h
  obtain ⟨hy, hm1, hm2, hd1, hd2⟩ := h
  unfold nextDay
  dsimp only
  split_ifs with hA hB
  · rw [validDate_mk]
    exact ⟨hy, hm1, hm2, by omega, by omega⟩
  · rw [validDate_mk]
    exact ⟨hy, by omega, by omega, le_refl 1,
      daysInMonth_pos y (m + 1) (by omega) (by omega)⟩
  · rw [validDate_mk]
    refine ⟨by omega, by omega, by omega, le_refl 1, ?_⟩
    norm_num [daysInMonth]

lemma daysBeforeMonth_succ (y m : ℕ) (h1 : 1 ≤ m) (h2 : m ≤ 11) :
    daysBeforeMonth y (m + 1) = daysBeforeMonth y m + daysInMonth y m := by
  cases hL : isLeapYear y <;> interval_cases m <;>
    simp [daysBeforeMonth, daysInMonth, hL]

lemma toOrdinal_mk (y m dd : ℕ) :
    toOrdinal ⟨y, m, dd⟩ = 365 * (y - 1) + (y - 1) / 4 - (y - 1) / 100 +
      (y - 1) / 400 + daysBeforeMonth y m + dd := rfl

set_option maxHeartbeats 1600000 in
lemma toOrdinal_nextDay {d : Date} (h : validDate d) :
    toOrdinal (nextDay d) = toOrdinal d + 1 := by
  obtain ⟨y, m, dd⟩ := d
  rw [validDate_mk] at h
  obtain ⟨hy, hm1, hm2, hd1, hd2⟩ := h
  unfold nextDay
  dsimp only
  split_ifs with hA hB
  · rw [toOrdinal_mk, toOrdinal_mk]
    omega
  · have hstep := daysBeforeMonth_succ y m hm1 (by omega)
    rw [toOrdinal_mk, toOrdinal_mk]
    omega
  · have hm12 : m = 12 := by omega
    subst hm12
    have hdim : daysInMonth y 12 = 31 := rfl
    have hd31 : dd = 31 := by omega
    subst hd31
    rw [toOrdinal_mk, toOrdinal_mk]
    have hb1 : daysBeforeMonth (y + 1) 1 = 0 := by
      simp [daysBeforeMonth]
    rw [hb1]
    cases hL : isLeapYear y with
    | false =>
      have hnl : ¬ ((y % 4 = 0 ∧ ¬ y % 100 = 0) ∨ y % 400 = 0) :=
        of_decide_eq_false hL
      have hb12 : daysBeforeMonth y 12 = 334 := by
        simp [daysBeforeMonth, hL]
      rw [hb12]
      omega
    | true =>
      have hl : (y % 4 = 0 ∧ ¬ y % 100 = 0) ∨ y % 400 = 0 :=
        of_decide_eq_true hL
      have hb12 : daysBeforeMonth y 12 = 335 := by
        simp [daysBeforeMonth, hL]
      rw [hb12]
      omega

lemma toOrdinal_addDays {d : Date} (h : validDate d) (k : ℕ) :
    validDate (addDays d k) ∧ toOrdinal (addDays d k) = toOrdinal d + k := by
  induction k with
  | zero => simpa [addDays] using h
  | succ n ih =>
    have hstep : addDays d (n + 1) = nextDay (addDays d n) := by
      simp [addDays, Function.iterate_succ_apply']
    refine ⟨?_, ?_⟩
    · rw [hstep]; exact nextDay_valid ih.1
    · rw [hstep, toOrdinal_nextDay ih.1, ih.2]; omega

lemma parseDate_valid {s : String} {d : Date} (h : parseDate s = some d) :
    validDate d := by
  unfold parseDate at h
  repeat' split at h
  any_goals exact Option.noConfusion h
  injection h with h'
  subst h'
  show isValidDate _ = true
  assumption

/-- C3: for well-formed `YYYY-MM-DD` dates with `end > start` (i.e. the
end date is the start date advanced by `k ≥ 1` calendar days), the
computed duration is the calendar-day difference plus one — the
inclusive day count `k + 1`. -/
theorem calculate_duration_inclusive (s e : String) (ds de : Date) (k : ℕ)
    (hs : parseDate s = some ds) (he : parseDate e = some de)
    (hk : de = addDays ds k) (hpos : 1 ≤ k) :
    calculate_duration s e = some ((k : ℤ) + 1) := by
  have hvs : validDate ds := parseDate_valid hs
  have hord : toOrdinal de = toOrdinal ds + k := by
    rw [hk]; exact (toOrdinal_addDays hvs k).2
  simp only [calculate_duration, hs, he, Option.bind_eq_bind, Option.some_bind,
    Option.pure_def, Option.some.injEq]
  rw [hord]
  push_cast
  ring

/-- Witness for C3 at the spec's own example: 2024-06-01 → 2024-06-07
yields 7. -/
theorem calculate_duration_inclusive_witness :
    calculate_duration "2024-06-01" "2024-06-07" = some 7 := by
  have h := calculate_duration_inclusive "2024-06-01" "2024-06-07"
    ⟨2024, 6, 1⟩ ⟨2024, 6, 7⟩ 6 (by decide) (by decide) (by decide) (by decide)
  simpa using h

/-! ## Attraction agent data (`attraction_agent.py`) -/

/-- Embedding of `Attraction` dataclass. -/
structure Attraction where
  name : String
  category : String
  location : String
  description : String
  rating : ℚ
  price : ℚ := 0
  duration_hours : ℚ := 2
  open_hours : String := "09:00-18:00"
deriving DecidableEq, Repr

/-- Embedding of `AttractionAgent.calculate_activities_cost`: sum of attraction prices. -/
def calculate_activities_cost (attractions : List Attraction) : ℚ :=
  (attractions.map Attraction.price).sum

/-! ## Itinerary agent (`itinerary_agent.py`) -/

/-- An entry of a day's `activities` list (a dict with `time`/`type`/
`description` keys). -/
structure Activity where
  time : String
  type : String
  description : String
deriving DecidableEq, Repr

/-- Embedding of `DayPlan` dataclass. -/
structure DayPlan where
  day_number : ℕ
  date : String
  activities : List Activity
  notes : String := ""
deriving DecidableEq, Repr

/-- Embedding of `Itinerary` dataclass. -/
structure Itinerary where
  destination : String
  start_date : String
  end_date : String
  days : List DayPlan
  total_budget : ℚ := 0
  summary : String := ""
deriving DecidableEq, Repr

/-- Embedding of `f"{hour:02d}:00"`. -/
def fmtHour (hour : ℕ) : String :=
  padNum hour 2 ++ ":00"

/-- The attraction-visit activities of one day: the loop that walks the
day's attraction slice with a running `hour` starting at 10 and stepping
by 3. -/
def attractionActs (hour : ℕ) : List Attraction → List Activity
  | [] => []
  | a :: rest =>
    ⟨fmtHour hour, "attraction", "Visit " ++ a.name⟩ :: attractionActs (hour + 3) rest

/-- One day's full activity list: breakfast, then the attraction visits,
then (only when the slice is empty) a generic exploration activity, then
dinner. -/
def dayActivities (destination : String) (day_attractions : List Attraction) :
    List Activity :=
  [⟨"09:00", "breakfast", "Breakfast at hotel"⟩] ++
  attractionActs 10 day_attractions ++
  (if day_attractions.isEmpty then
    [⟨"10:00", "exploration", "Explore " ++ destination⟩]
   else []) ++
  [⟨"19:00", "dinner", "Dinner at local restaurant"⟩]

/-- Embedding of `attractions_per_day = max(1, len(attractions) // num_days) if
attractions else 2`, with `n` the day count. -/
def attractionsPerDay (attractions : List Attraction) (n : ℕ) : ℕ :=
  if attractions.isEmpty then 2 else max 1 (attractions.length / n)

/-- The slice `attractions_list[i*apd : i*apd + apd]` handed to day `i`. -/
def dayAttrs (attractions : List Attraction) (apd i : ℕ) : List Attraction :=
  (attractions.drop (i * apd)).take apd

/-- Embedding of `ItineraryAgent.create_itinerary` (the ignored `preferences` argument
is omitted). `none` models the `ValueError` raised on malformed dates;
for `end < start` Python's `range` over a non-positive day count is
empty, modelled by `Int.toNat`. -/
def create_itinerary (destination start_date end_date : String)
    (attractions : List Attraction) : Option Itinerary := do
  let start ← parseDate start_date
  let e ← parseDate end_date
  let num_days : ℤ := (toOrdinal e : ℤ) - (toOrdinal start : ℤ) + 1
  let n := num_days.toNat
  let apd := attractionsPerDay attractions n
  let days := (List.range n).map (fun i =>
    { day_number := i + 1
      date := formatDate (addDays start i)
      activities := dayActivities destination (dayAttrs attractions apd i)
      notes := "Day " ++ toString (i + 1) ++ " in " ++ destination })
  pure { destination := destination
         start_date := start_date
         end_date := end_date
         days := days
         summary := toString num_days ++ "-day trip to " ++ destination }

lemma attractionActs_length (h : ℕ) (l : List Attraction) :
    (attractionActs h l).length = l.length := by
  induction l generalizing h with
  | nil => rfl
  | cons x rest ih => simp [attractionActs, ih]

lemma attractionActs_getElem? (l : List Attraction) (h j : ℕ) (a : Attraction)
    (hja : l[j]? = some a) :
    (attractionActs h l)[j]? =
      some ⟨fmtHour (h + 3 * j), "attraction", "Visit " ++ a.name⟩ := by
  induction l generalizing h j with
  | nil => simp at hja
  | cons x rest ih =>
    cases j with
    | zero =>
      simp only [List.getElem?_cons_zero, Option.some.injEq] at hja
      subst hja
      simp [attractionActs]
    | succ j' =>
      simp only [List.getElem?_cons_succ] at hja
      simp only [attractionActs, List.getElem?_cons_succ]
      have harg : h + 3 + 3 * j' = h + 3 * (j' + 1) := by ring
      rw [ih (h + 3) j' hja, harg]

lemma filter_attractionActs (h : ℕ) (l : List Attraction) :
    (attractionActs h l).filter (fun a => a.type == "attraction") =
      attractionActs h l := by
  induction l generalizing h with
  | nil => rfl
  | cons x rest ih => simp [attractionActs, ih]

lemma map_description_attractionActs (h : ℕ) (l : List Attraction) :
    (attractionActs h l).map Activity.description =
      l.map (fun a => "Visit " ++ a.name) := by
  induction l generalizing h with
  | nil => rfl
  | cons x rest ih => simp [attractionActs, ih]

lemma dayActivities_eq (dest : String) (l : List Attraction) :
    dayActivities dest l =
      ⟨"09:00", "breakfast", "Breakfast at hotel"⟩ ::
        ((attractionActs 10 l ++
          (if l.isEmpty then
            [⟨"10:00", "exploration", "Explore " ++ dest⟩] else [])) ++
         [⟨"19:00", "dinner", "Dinner at local restaurant"⟩]) := by
  simp [dayActivities]

lemma flatten_slices (l : List Attraction) (apd : ℕ) (n : ℕ) :
    ((List.range n).map (fun i => (l.drop (i * apd)).take apd)).flatten =
      l.take (n * apd) := by
  induction n with
  | zero => simp
  | succ m ih =>
    rw [List.range_succ, List.map_append, List.flatten_append]
    simp only [List.map_cons, List.map_nil, List.flatten_cons, List.flatten_nil,
      List.append_nil]
    rw [ih]
    have harg : (m + 1) * apd = m * apd + apd := by ring
    rw [harg, List.take_add]

/-- Python's stable ascending `list.sort(key = time)`, as a stable
insertion sort on the `time` field. -/
def sortActivities (l : List Activity) : List Activity :=
  List.insertionSort (fun a b => a.time ≤ b.time) l

/-- Embedding of `ItineraryAgent.add_activity`: when `day_number` lies in
`[1, len(days)]`, append the activity to that (1-indexed) day and
re-sort the day's activities by time; otherwise the guard fails silently
and the itinerary is returned unchanged. -/
def add_activity (itinerary : Itinerary) (day_number : ℤ) (activity : Activity) :
    Itinerary :=
  if 1 ≤ day_number ∧ day_number ≤ itinerary.days.length then
    let idx := (day_number - 1).toNat
    let day := itinerary.days.getD idx ⟨0, "", [], ""⟩
    { itinerary with
        days := itinerary.days.set idx
          { day with activities := sortActivities (day.activities ++ [activity]) } }
  else itinerary

lemma isEmpty_false_of_ne_nil {α : Type} {l : List α} (h : l ≠ []) :
    l.isEmpty = false := by
  cases l with
  | nil => exact absurd rfl h
  | cons a t => rfl

lemma middle_dayActivities (dest : String) (l : List Attraction) :
    ((dayActivities dest l).drop 1).dropLast =
      attractionActs 10 l ++
        (if l.isEmpty then
          [⟨"10:00", "exploration", "Explore " ++ dest⟩] else []) := by
  rw [dayActivities_eq, List.drop_succ_cons, List.drop_zero,
    List.dropLast_concat]

lemma create_itinerary_eq {s e : String} {ds de : Date}
    (destination : String) (attractions : List Attraction)
    (hs : parseDate s = some ds) (he : parseDate e = some de) :
    create_itinerary destination s e attractions =
      some { destination := destination
             start_date := s
             end_date := e
             days := (List.range
                 ((toOrdinal de : ℤ) - (toOrdinal ds : ℤ) + 1).toNat).map (fun i =>
               { day_number := i + 1
                 date := formatDate (addDays ds i)
                 activities := dayActivities destination
                   (dayAttrs attractions
                     (attractionsPerDay attractions
                       ((toOrdinal de : ℤ) - (toOrdinal ds : ℤ) + 1).toNat) i)
                 notes := "Day " ++ toString (i + 1) ++ " in " ++ destination })
             summary := toString ((toOrdinal de : ℤ) - (toOrdinal ds : ℤ) + 1) ++
               "-day trip to " ++ destination } := by
  simp [create_itinerary, hs, he]

/-- C2: for well-formed dates with `end > start`, the returned itinerary
has exactly the inclusive day count of DayPlans; day `i` (0-indexed) is
numbered `i + 1` and dated `start + i` days; its first activity is the
09:00 breakfast and its last the 19:00 dinner; in between stand exactly
the day's sliced attractions, in encounter order, at 10:00, 13:00,
16:00, … (3-hour steps) — replaced by a single generic exploration
activity at 10:00 when the day's slice is empty. -/
theorem create_itinerary_day_structure
    (destination s e : String) (attractions : List Attraction) (ds de : Date)
    (hs : parseDate s = some ds) (he : parseDate e = some de)
    (hlt : toOrdinal ds < toOrdinal de) :
    ∀ it, create_itinerary destination s e attractions = some it →
      it.days.length = toOrdinal de - toOrdinal ds + 1 ∧
      ∀ i (hi : i < it.days.length),
        it.days[i].day_number = i + 1 ∧
        it.days[i].date = formatDate (addDays ds i) ∧
        it.days[i].activities.head? =
          some ⟨"09:00", "breakfast", "Breakfast at hotel"⟩ ∧
        it.days[i].activities.getLast? =
          some ⟨"19:00", "dinner", "Dinner at local restaurant"⟩ ∧
        (dayAttrs attractions (attractionsPerDay attractions it.days.length) i = [] →
          (it.days[i].activities.drop 1).dropLast =
            [⟨"10:00", "exploration", "Explore " ++ destination⟩]) ∧
        (dayAttrs attractions (attractionsPerDay attractions it.days.length) i ≠ [] →
          ((it.days[i].activities.drop 1).dropLast).length =
            (dayAttrs attractions (attractionsPerDay attractions it.days.length) i).length) ∧
        (∀ j a,
          (dayAttrs attractions (attractionsPerDay attractions it.days.length) i)[j]? =
            some a →
          ((it.days[i].activities.drop 1).dropLast)[j]? =
            some (Activity.mk (fmtHour (10 + 3 * j)) "attraction"
              ("Visit " ++ a.name))) := by
  intro it hit
  rw [create_itinerary_eq destination attractions hs he] at hit
  injection hit with hit
  subst hit
  dsimp only
  constructor
  · rw [List.length_map, List.length_range]
    omega
  · intro i hi
    have hi' : i < ((toOrdinal de : ℤ) - (toOrdinal ds : ℤ) + 1).toNat := by
      simpa using hi
    simp only [List.length_map, List.length_range, List.getElem_map,
      List.getElem_range]
    refine ⟨trivial, trivial, ?_, ?_, ?_, ?_, ?_⟩
    · rw [dayActivities_eq]
      rfl
    · rw [dayActivities_eq, ← List.cons_append]
      exact List.getLast?_concat _
    · intro hempty
      rw [middle_dayActivities, hempty]
      simp [attractionActs]
    · intro hne
      rw [middle_dayActivities, isEmpty_false_of_ne_nil hne]
      simp [attractionActs_length]
    · intro j a hja
      have hne : dayAttrs attractions
          (attractionsPerDay attractions
            ((toOrdinal de : ℤ) - (toOrdinal ds : ℤ) + 1).toNat) i ≠ [] := by
        intro h0
        rw [h0] at hja
        simp at hja
      rw [middle_dayActivities, isEmpty_false_of_ne_nil hne]
      simpa using attractionActs_getElem? _ 10 j a hja

/-- Witness for C2: a two-day Paris trip exists and has the inclusive
day count of DayPlans. -/
theorem create_itinerary_day_structure_witness :
    ∃ it, create_itinerary "Paris" "2024-06-01" "2024-06-02" [] = some it ∧
      it.days.length = toOrdinal ⟨2024, 6, 2⟩ - toOrdinal ⟨2024, 6, 1⟩ + 1 := by
  obtain ⟨it, hit⟩ := Option.isSome_iff_exists.mp
    (show (create_itinerary "Paris" "2024-06-01" "2024-06-02" []).isSome by decide)
  exact ⟨it, hit,
    (create_itinerary_day_structure "Paris" "2024-06-01" "2024-06-02" []
      ⟨2024, 6, 1⟩ ⟨2024, 6, 2⟩ (by decide) (by decide) (by decide) it hit).1⟩

lemma filter_map_dayActivities (dest : String) (l : List Attraction) :
    ((dayActivities dest l).filter (fun a => a.type == "attraction")).map
        Activity.description = l.map (fun a => "Visit " ++ a.name) := by
  cases l with
  | nil => simp [dayActivities, attractionActs]
  | cons x rest =>
    rw [dayActivities_eq]
    simp [List.filter_cons, List.filter_append, filter_attractionActs,
      map_description_attractionActs]

/-- C8: with a non-empty attraction list, the per-day quota is
`max(1, ⌊L / N⌋)`, each day `i` receives exactly the slice
`[i*apd, (i+1)*apd)` of the attraction list (silently empty once
attractions run out), and the slices taken together cover exactly the
first `N*apd` attractions — every later attraction is dropped, not
appended to the last day. -/
theorem create_itinerary_distribution
    (destination s e : String) (attractions : List Attraction) (ds de : Date)
    (hs : parseDate s = some ds) (he : parseDate e = some de)
    (hlt : toOrdinal ds < toOrdinal de) (hne : attractions ≠ []) :
    ∀ it, create_itinerary destination s e attractions = some it →
      attractionsPerDay attractions it.days.length =
        max 1 (attractions.length / it.days.length) ∧
      (∀ i (hi : i < it.days.length),
        (it.days[i].activities.filter (fun a => a.type == "attraction")).map
            Activity.description =
          ((attractions.drop (i * attractionsPerDay attractions it.days.length)).take
            (attractionsPerDay attractions it.days.length)).map
              (fun a => "Visit " ++ a.name)) ∧
      ((List.range it.days.length).map (fun i =>
          (attractions.drop (i * attractionsPerDay attractions it.days.length)).take
            (attractionsPerDay attractions it.days.length))).flatten =
        attractions.take
          (it.days.length * attractionsPerDay attractions it.days.length) := by
  intro it hit
  rw [create_itinerary_eq destination attractions hs he] at hit
  injection hit with hit
  subst hit
  dsimp only
  refine ⟨?_, ?_, ?_⟩
  · simp only [List.length_map, List.length_range]
    simp [attractionsPerDay, isEmpty_false_of_ne_nil hne]
  · intro i hi
    simp only [List.length_map, List.length_range, List.getElem_map,
      List.getElem_range]
    rw [filter_map_dayActivities]
    rfl
  · simp only [List.length_map, List.length_range]
    exact flatten_slices attractions _ _

/-- Witness for C8: three Roman attractions over a two-day trip give a
per-day quota of `max(1, ⌊3/2⌋)`. -/
theorem create_itinerary_distribution_witness :
    ∃ it, create_itinerary "Rome" "2024-06-01" "2024-06-02"
        [Attraction.mk "Colosseum" "landmark" "Rome" "Ancient arena"
          (47/10) 25 3 "09:00-18:00",
         Attraction.mk "Forum" "landmark" "Rome" "Ruins"
          (45/10) 15 2 "09:00-18:00",
         Attraction.mk "Pantheon" "landmark" "Rome" "Temple"
          (48/10) 0 1 "09:00-18:00"] = some it ∧
      attractionsPerDay
        [Attraction.mk "Colosseum" "landmark" "Rome" "Ancient arena"
          (47/10) 25 3 "09:00-18:00",
         Attraction.mk "Forum" "landmark" "Rome" "Ruins"
          (45/10) 15 2 "09:00-18:00",
         Attraction.mk "Pantheon" "landmark" "Rome" "Temple"
          (48/10) 0 1 "09:00-18:00"] it.days.length =
        max 1 (3 / it.days.length) := by
  obtain ⟨it, hit⟩ := Option.isSome_iff_exists.mp
    (show (create_itinerary "Rome" "2024-06-01" "2024-06-02"
      [Attraction.mk "Colosseum" "landmark" "Rome" "Ancient arena"
        (47/10) 25 3 "09:00-18:00",
       Attraction.mk "Forum" "landmark" "Rome" "Ruins"
        (45/10) 15 2 "09:00-18:00",
       Attraction.mk "Pantheon" "landmark" "Rome" "Temple"
        (48/10) 0 1 "09:00-18:00"]).isSome by decide)
  exact ⟨it, hit,
    (create_itinerary_distribution "Rome" "2024-06-01" "2024-06-02" _
      ⟨2024, 6, 1⟩ ⟨2024, 6, 2⟩ (by decide) (by decide) (by decide)
      (by decide) it hit).1⟩

instance : IsTotal Activity (fun a b : Activity => a.time ≤ b.time) :=
  ⟨fun a b => le_total a.time b.time⟩

instance : IsTrans Activity (fun a b : Activity => a.time ≤ b.time) :=
  ⟨fun a b c hab hbc => le_trans hab hbc⟩

/-- C5 (amended): for `day_number` within `[1, N]`, `add_activity`
appends the activity to the 1-indexed day and stably re-sorts that day's
activities by time-of-day; for `day_number` outside `[1, N]` the guard
fails silently and the itinerary is returned unchanged — no
IndexError-equivalent is raised. -/
theorem add_activity_spec (it : Itinerary) (d : ℤ) (act : Activity) :
    (∀ day, 1 ≤ d → d ≤ it.days.length →
      it.days[(d - 1).toNat]? = some day →
      (add_activity it d act).days =
        it.days.set (d - 1).toNat
          { day with activities := sortActivities (day.activities ++ [act]) } ∧
      (sortActivities (day.activities ++ [act])).Perm (day.activities ++ [act]) ∧
      (sortActivities (day.activities ++ [act])).Sorted
        (fun a b => a.time ≤ b.time)) ∧
    (¬ (1 ≤ d ∧ d ≤ it.days.length) → add_activity it d act = it) := by
  constructor
  · intro day h1 h2 hday
    have hgd : it.days.getD (d - 1).toNat ⟨0, "", [], ""⟩ = day := by
      rw [List.getD_eq_getElem?_getD, hday]
      rfl
    refine ⟨?_, List.perm_insertionSort _ _, List.sorted_insertionSort _ _⟩
    simp only [add_activity]
    rw [if_pos ⟨h1, h2⟩, hgd]
  · intro hout
    simp only [add_activity]
    rw [if_neg hout]

/-- Witness for C5 at a one-day itinerary and an in-range day 1: the
day's activity list is re-sorted after the append. -/
theorem add_activity_spec_witness :
    (add_activity
        (Itinerary.mk "P" "2024-06-01" "2024-06-01"
          [DayPlan.mk 1 "2024-06-01"
            [Activity.mk "09:00" "breakfast" "B",
             Activity.mk "19:00" "dinner" "D"] "n"] 0 "s")
        1 (Activity.mk "12:00" "lunch" "L")).days =
      [DayPlan.mk 1 "2024-06-01"
        [Activity.mk "09:00" "breakfast" "B",
         Activity.mk "19:00" "dinner" "D"] "n"].set 0
        (DayPlan.mk 1 "2024-06-01"
          (sortActivities
            ([Activity.mk "09:00" "breakfast" "B",
              Activity.mk "19:00" "dinner" "D"] ++
             [Activity.mk "12:00" "lunch" "L"])) "n") ∧
    (sortActivities
        ([Activity.mk "09:00" "breakfast" "B",
          Activity.mk "19:00" "dinner" "D"] ++
         [Activity.mk "12:00" "lunch" "L"])).Perm
      ([Activity.mk "09:00" "breakfast" "B",
        Activity.mk "19:00" "dinner" "D"] ++
       [Activity.mk "12:00" "lunch" "L"]) ∧
    (sortActivities
        ([Activity.mk "09:00" "breakfast" "B",
          Activity.mk "19:00" "dinner" "D"] ++
         [Activity.mk "12:00" "lunch" "L"])).Sorted
      (fun a b => a.time ≤ b.time) :=
  (add_activity_spec
    (Itinerary.mk "P" "2024-06-01" "2024-06-01"
      [DayPlan.mk 1 "2024-06-01"
        [Activity.mk "09:00" "breakfast" "B",
         Activity.mk "19:00" "dinner" "D"] "n"] 0 "s")
    1 (Activity.mk "12:00" "lunch" "L")).1
    (DayPlan.mk 1 "2024-06-01"
      [Activity.mk "09:00" "breakfast" "B",
       Activity.mk "19:00" "dinner" "D"] "n")
    (by decide) (by decide) (by decide)

/-- C5 counterexample: with a one-day itinerary and out-of-range
`day_number = 5`, `add_activity` returns the itinerary unchanged — it
does not fail with an IndexError-equivalent as the claim states. -/
theorem add_activity_out_of_range_counterexample :
    add_activity
        (Itinerary.mk "Q" "2024-07-01" "2024-07-01"
          [DayPlan.mk 1 "2024-07-01"
            [Activity.mk "09:00" "breakfast" "B2"] "m"] 0 "t")
        5 (Activity.mk "11:00" "museum" "M") =
      Itinerary.mk "Q" "2024-07-01" "2024-07-01"
        [DayPlan.mk 1 "2024-07-01"
          [Activity.mk "09:00" "breakfast" "B2"] "m"] 0 "t" := by
  decide

/-! ## Disruption agent (`disruption_agent.py`)

The wall-clock fields `detected_at` / `generated_at` / `revised_at`
(defaulted `datetime.now()` timestamps, never read by the logic) are
omitted from the embedded records. -/

/-- Embedding of `DisruptionType` enum. -/
inductive DisruptionType
  | flight_cancelled
  | flight_delayed
  | severe_weather
  | hotel_unavailable
  | attraction_closed
  | transportation_issue
  | other
deriving DecidableEq, Repr

/-- Embedding of `DisruptionSeverity` enum. -/
inductive DisruptionSeverity
  | low
  | medium
  | high
  | critical
deriving DecidableEq, Repr

/-- Embedding of `Disruption` dataclass. -/
structure Disruption where
  disruption_type : DisruptionType
  severity : DisruptionSeverity
  affected_date : String
  description : String
  affected_components : List String := []
deriving DecidableEq, Repr

/-- Embedding of `DisruptionReport` dataclass. -/
structure DisruptionReport where
  disruptions : List Disruption := []
  risk_score : ℚ := 0
  recommendations : List String := []
  requires_replanning : Bool := false
deriving DecidableEq, Repr

/-- The `severity_weights` table of `_calculate_risk_score`
(`.get(severity, 0)` never falls through: every severity is a key). -/
def severity_weight (s : DisruptionSeverity) : ℚ :=
  match s with
  | .low => 10
  | .medium => 30
  | .high => 60
  | .critical => 100

/-- Embedding of `DisruptionAgent._calculate_risk_score`: 0 for no disruptions, else
the sum of severity weights capped at 100. -/
def calculate_risk_score (disruptions : List Disruption) : ℚ :=
  if disruptions.isEmpty then 0
  else min ((disruptions.map (fun d => severity_weight d.severity)).sum) 100

/-- Embedding of `DisruptionAgent._generate_recommendations`: fixed strings appended
per disruption type. -/
def generate_recommendations (disruptions : List Disruption) : List String :=
  disruptions.flatMap (fun d =>
    match d.disruption_type with
    | .flight_cancelled =>
      ["Contact airline immediately for rebooking options",
       "Consider flexible accommodation if arrival is delayed"]
    | .severe_weather =>
      ["Have backup indoor activities planned",
       "Check local weather alerts regularly"]
    | .attraction_closed =>
      ["Research alternative attractions in the area"]
    | _ => [])

/-- The `severe_weather` sub-mapping of the live data, with the
`.get` defaults already applied. -/
structure WeatherInfo where
  date : String := ""
  description : String := "Severe weather expected"
deriving DecidableEq, Repr

/-- The `live_data` mapping consulted by `detect_disruptions`, with
`.get` defaults applied; a `None` or empty (falsy) mapping is `none`. -/
structure LiveData where
  flight_cancelled : Bool := false
  flight_delayed_hours : ℚ := 0
  severe_weather : Option WeatherInfo := none
deriving DecidableEq, Repr

/-- The keys of the itinerary mapping `detect_disruptions` reads. -/
structure ItineraryDict where
  destination : String := ""
  start_date : String := ""
deriving DecidableEq, Repr

/-- Embedding of `DisruptionAgent.detect_disruptions`. -/
def detect_disruptions (itinerary : ItineraryDict)
    (live_data : Option LiveData) : DisruptionReport :=
  let disruptions :=
    match live_data with
    | some ld =>
      (if ld.flight_cancelled then
        [Disruption.mk .flight_cancelled .high itinerary.start_date
          "Outbound flight has been cancelled" ["flight", "day_1_activities"]]
       else []) ++
      (if ld.flight_delayed_hours > 3 then
        [Disruption.mk .flight_delayed .medium itinerary.start_date
          ("Flight delayed by " ++ toString ld.flight_delayed_hours ++ " hours")
          ["flight", "day_1_activities"]]
       else []) ++
      (match ld.severe_weather with
       | some w =>
         [Disruption.mk .severe_weather .medium w.date w.description
           ["outdoor_activities"]]
       | none => [])
    | none => []
  { disruptions := disruptions
    risk_score := calculate_risk_score disruptions
    recommendations := generate_recommendations disruptions
    requires_replanning := disruptions.any (fun d =>
      decide (d.severity = DisruptionSeverity.high ∨
        d.severity = DisruptionSeverity.critical)) }

lemma severity_weight_pos (s : DisruptionSeverity) : 0 < severity_weight s := by
  cases s <;> norm_num [severity_weight]

lemma sum_weights_all_critical (l : List Disruption)
    (hall : ∀ d ∈ l, d.severity = DisruptionSeverity.critical) :
    (l.map (fun d => severity_weight d.severity)).sum = 100 * l.length := by
  induction l with
  | nil => simp
  | cons d t ih =>
    have hd := hall d (List.mem_cons_self _ _)
    rw [List.map_cons, List.sum_cons,
      ih (fun x hx => hall x (List.mem_cons_of_mem _ hx)), hd]
    simp only [severity_weight, List.length_cons]
    push_cast
    ring

/-- C6: the risk score is the severity-weight sum (10/30/60/100) capped
at 100, 0 on the empty list; it is monotonically non-decreasing under
appending a disruption and saturates at 100 on any non-empty
all-critical list. -/
theorem calculate_risk_score_spec :
    (∀ l : List Disruption, calculate_risk_score l =
      min ((l.map (fun d => severity_weight d.severity)).sum) 100) ∧
    calculate_risk_score [] = 0 ∧
    (∀ (l : List Disruption) (d : Disruption),
      calculate_risk_score l ≤ calculate_risk_score (l ++ [d])) ∧
    (∀ l : List Disruption, l ≠ [] →
      (∀ d ∈ l, d.severity = DisruptionSeverity.critical) →
      calculate_risk_score l = 100) := by
  have hmin : ∀ l : List Disruption, calculate_risk_score l =
      min ((l.map (fun d => severity_weight d.severity)).sum) 100 := by
    intro l
    cases l with
    | nil => simp [calculate_risk_score]
    | cons d t => rfl
  have hnonneg : ∀ l : List Disruption,
      0 ≤ (l.map (fun d => severity_weight d.severity)).sum := by
    intro l
    apply List.sum_nonneg
    intro x hx
    obtain ⟨d, _, rfl⟩ := List.mem_map.mp hx
    exact le_of_lt (severity_weight_pos d.severity)
  refine ⟨hmin, by simp [calculate_risk_score], ?_, ?_⟩
  · intro l d
    rw [hmin, hmin]
    apply min_le_min _ le_rfl
    rw [List.map_append, List.sum_append]
    simp only [List.map_cons, List.map_nil, List.sum_cons, List.sum_nil,
      add_zero]
    have := severity_weight_pos d.severity
    linarith
  · intro l hne hall
    rw [hmin, sum_weights_all_critical l hall]
    have hlen : 1 ≤ l.length := by
      cases l with
      | nil => exact absurd rfl hne
      | cons a t => simp
    rw [min_eq_right]
    have : (1 : ℚ) ≤ l.length := by exact_mod_cast hlen
    nlinarith

/-- Witness for C6: appending a critical disruption to a low one does
not decrease the score, and a two-critical list saturates at 100. -/
theorem calculate_risk_score_spec_witness :
    calculate_risk_score
        [Disruption.mk .other .low "2024-06-01" "minor" []] ≤
      calculate_risk_score
        ([Disruption.mk .other .low "2024-06-01" "minor" []] ++
         [Disruption.mk .flight_cancelled .critical "2024-06-01" "major" []]) ∧
    calculate_risk_score
        [Disruption.mk .flight_cancelled .critical "2024-06-01" "major" [],
         Disruption.mk .severe_weather .critical "2024-06-02" "storm" []] =
      100 :=
  ⟨calculate_risk_score_spec.2.2.1 _ _,
   calculate_risk_score_spec.2.2.2 _ (by decide) (by decide)⟩

/-- C10: with no live data (absent/None or an empty, falsy mapping),
`detect_disruptions` reports no disruptions, risk score 0, no
recommendations, and no replanning. -/
theorem detect_disruptions_no_live_data (itinerary : ItineraryDict) :
    detect_disruptions itinerary none =
      { disruptions := []
        risk_score := 0
        recommendations := []
        requires_replanning := false } ∧
    detect_disruptions itinerary (some {}) =
      { disruptions := []
        risk_score := 0
        recommendations := []
        requires_replanning := false } := by
  constructor
  · simp [detect_disruptions, calculate_risk_score, generate_recommendations]
  · simp [detect_disruptions, calculate_risk_score, generate_recommendations]

/-! ## Disruption revision flow (`generate_revised_itinerary`)

Python's `daily_schedule` is a list of references to shared day dicts;
`.copy()` copies only the reference list. The heap of day dicts is
modelled explicitly as a store (`List SchedDay`, addresses = indices)
and a schedule as a list of addresses, so that in-place mutation of a
shared day dict is observable through the original itinerary. -/

/-- An entry of a day dict's `activities` list: originally an activity
dict, but `_replace_with_indoor_activities` overwrites the list with
plain strings. -/
inductive SchedActivity
  | act (a : Activity)
  | txt (s : String)
deriving DecidableEq, Repr

/-- A (mutable, shared) day dict of a `daily_schedule`. -/
structure SchedDay where
  day : ℕ := 0
  date : String := ""
  activities : List SchedActivity := []
  weather_note : Option String := none
deriving DecidableEq, Repr

/-- The mock alternative flight dict of `_find_alternative_flights`. -/
structure RevFlight where
  airline : String
  departure : String
  arrival : String
  price : ℚ
  note : String := ""
deriving DecidableEq, Repr

/-- The keys of `original_itinerary` the revision flow reads; the
`daily_schedule` holds store addresses of shared day dicts. -/
structure OrigItinerary where
  flights : List RevFlight := []
  daily_schedule : List ℕ := []
deriving DecidableEq, Repr

/-- A `changes` entry of a `RevisedItinerary`. -/
structure ChangeRec where
  type : String
  description : String
  affected_date : String
deriving DecidableEq, Repr

/-- Embedding of `RevisedItinerary` dataclass (wall-clock field omitted). -/
structure RevisedItinerary where
  original_itinerary : OrigItinerary
  disruptions_addressed : List Disruption
  changes : List ChangeRec := []
  new_flights : List RevFlight := []
  new_accommodations : List RevFlight := []
  new_daily_schedule : List ℕ := []
  estimated_additional_cost : ℚ := 0
  revision_notes : String := ""
deriving DecidableEq, Repr

/-- Embedding of `DisruptionAgent._find_alternative_flights` (ignores its input). -/
def find_alternative_flights (original_flights : List RevFlight) :
    List RevFlight :=
  [⟨"Alternative Airways", "2024-06-01 14:00", "2024-06-01 16:30", 450,
    "Rebooked flight"⟩]

/-- Embedding of `DisruptionAgent._adjust_schedule_for_delay`: copies the reference
list, then writes `activities[1:]` through the first shared reference —
mutating the store. Returns the updated store and the returned list. -/
def adjust_schedule_for_delay (store : List SchedDay)
    (daily_schedule : List ℕ) : List SchedDay × List ℕ :=
  match daily_schedule with
  | [] => (store, daily_schedule)
  | r0 :: _ =>
    match store[r0]? with
    | some day0 =>
      (store.set r0 { day0 with activities := day0.activities.drop 1 },
       daily_schedule)
    | none => (store, daily_schedule)

/-- Embedding of `DisruptionAgent._replace_with_indoor_activities`: copies the
reference list, then overwrites `activities` and `weather_note` through
every shared reference whose date matches — mutating the store. -/
def replace_with_indoor_activities (store : List SchedDay)
    (daily_schedule : List ℕ) (affected_date : String) :
    List SchedDay × List ℕ :=
  (daily_schedule.foldl (fun st r =>
    match st[r]? with
    | some day =>
      if day.date = affected_date then
        st.set r { day with
          activities := [SchedActivity.txt "Visit local museum",
            SchedActivity.txt "Explore art gallery",
            SchedActivity.txt "Indoor market tour",
            SchedActivity.txt "Cooking class"],
          weather_note := some "Schedule adjusted for indoor activities" }
      else st
    | none => st) store,
   daily_schedule)

/-- The loop state of `generate_revised_itinerary`'s local variables,
plus the mutable store. -/
structure RevisionState where
  store : List SchedDay
  changes : List ChangeRec := []
  new_flights : List RevFlight := []
  new_daily_schedule : List ℕ := []
  additional_cost : ℚ := 0
  notes : List String := []

/-- One iteration of the `for disruption in report.disruptions` loop. -/
def revisionStep (original : OrigItinerary) (st : RevisionState)
    (d : Disruption) : RevisionState :=
  match d.disruption_type with
  | .flight_cancelled =>
    { st with
        new_flights := find_alternative_flights original.flights
        changes := st.changes ++
          [⟨"flight_replacement", "Booked alternative flight",
            d.affected_date⟩]
        additional_cost := st.additional_cost + 200
        notes := st.notes ++ ["Flight rebooked to next available departure"] }
  | .flight_delayed =>
    let (store2, sched2) :=
      adjust_schedule_for_delay st.store original.daily_schedule
    { st with
        store := store2
        new_daily_schedule := sched2
        changes := st.changes ++
          [⟨"schedule_adjustment", "Day 1 activities rescheduled",
            d.affected_date⟩]
        notes := st.notes ++
          ["First day activities postponed to accommodate delay"] }
  | .severe_weather =>
    let (store2, sched2) :=
      replace_with_indoor_activities st.store original.daily_schedule
        d.affected_date
    { st with
        store := store2
        new_daily_schedule := sched2
        changes := st.changes ++
          [⟨"activity_replacement",
            "Outdoor activities replaced with indoor alternatives",
            d.affected_date⟩]
        notes := st.notes ++
          ["Moved outdoor activities to indoor venues due to weather"] }
  | _ => st

/-- Embedding of `DisruptionAgent.generate_revised_itinerary`, returning the heap of
day dicts after the call together with the `RevisedItinerary`. -/
def generate_revised_itinerary (store : List SchedDay)
    (original : OrigItinerary) (report : DisruptionReport) :
    List SchedDay × RevisedItinerary :=
  let st := report.disruptions.foldl (revisionStep original)
    { store := store }
  (st.store,
   { original_itinerary := original
     disruptions_addressed := report.disruptions
     changes := st.changes
     new_flights := st.new_flights
     new_daily_schedule := st.new_daily_schedule
     estimated_additional_cost := st.additional_cost
     revision_notes := if st.notes.isEmpty then "Minor adjustments made"
       else String.intercalate " | " st.notes })

/-- The original itinerary's daily schedule as observed through the
store (what Python sees when it reads the original's shared day dicts). -/
def readSchedule (store : List SchedDay) (refs : List ℕ) :
    List (Option SchedDay) :=
  refs.map (fun r => store[r]?)

lemma foldl_revisionStep_store (original : OrigItinerary)
    (l : List Disruption)
    (h : ∀ d ∈ l, d.disruption_type ≠ DisruptionType.flight_delayed ∧
      d.disruption_type ≠ DisruptionType.severe_weather) :
    ∀ acc : RevisionState,
      (l.foldl (revisionStep original) acc).store = acc.store := by
  induction l with
  | nil => intro acc; rfl
  | cons d rest ih =>
    intro acc
    rw [List.foldl_cons,
      ih (fun x hx => h x (List.mem_cons_of_mem _ hx))]
    have hd := h d (List.mem_cons_self _ _)
    cases htype : d.disruption_type with
    | flight_delayed => exact absurd htype hd.1
    | severe_weather => exact absurd htype hd.2
    | flight_cancelled => simp [revisionStep, htype]
    | hotel_unavailable => simp [revisionStep, htype]
    | attraction_closed => simp [revisionStep, htype]
    | transportation_issue => simp [revisionStep, htype]
    | other => simp [revisionStep, htype]

/-- C4 (amended): `generate_revised_itinerary` leaves the original
itinerary unchanged only when the report contains no flight-delay and
no severe-weather disruption; those two remedies write through the
shared day dicts. Under that restriction the store — and hence the
original itinerary's observed daily schedule — is identical before and
after the call. -/
theorem generate_revised_itinerary_frame (store : List SchedDay)
    (original : OrigItinerary) (report : DisruptionReport)
    (h : ∀ d ∈ report.disruptions,
      d.disruption_type ≠ DisruptionType.flight_delayed ∧
      d.disruption_type ≠ DisruptionType.severe_weather) :
    (generate_revised_itinerary store original report).1 = store ∧
    readSchedule (generate_revised_itinerary store original report).1
        original.daily_schedule =
      readSchedule store original.daily_schedule := by
  have hstore : (generate_revised_itinerary store original report).1 = store :=
    foldl_revisionStep_store original report.disruptions h { store := store }
  exact ⟨hstore, by rw [hstore]⟩

/-- Witness for C4 at a report holding only a cancelled-flight
disruption: the store is untouched. -/
theorem generate_revised_itinerary_frame_witness :
    (generate_revised_itinerary
        [SchedDay.mk 1 "2024-06-01"
          [SchedActivity.txt "breakfast", SchedActivity.txt "museum"] none]
        (OrigItinerary.mk [] [0])
        (DisruptionReport.mk
          [Disruption.mk .flight_cancelled .high "2024-06-01"
            "Outbound flight has been cancelled" ["flight"]]
          60 [] true)).1 =
      [SchedDay.mk 1 "2024-06-01"
        [SchedActivity.txt "breakfast", SchedActivity.txt "museum"] none] :=
  (generate_revised_itinerary_frame
    [SchedDay.mk 1 "2024-06-01"
      [SchedActivity.txt "breakfast", SchedActivity.txt "museum"] none]
    (OrigItinerary.mk [] [0])
    (DisruptionReport.mk
      [Disruption.mk .flight_cancelled .high "2024-06-01"
        "Outbound flight has been cancelled" ["flight"]]
      60 [] true)
    (by decide)).1

/-- C4 counterexample: with a flight-delay disruption, the revision
writes through the shared day-1 dict, so the original itinerary's
observed daily schedule differs before and after the call — the claim
that the original is left unchanged is false. -/
theorem generate_revised_itinerary_mutates_counterexample :
    readSchedule
        (generate_revised_itinerary
          [SchedDay.mk 1 "2024-06-01"
            [SchedActivity.txt "breakfast", SchedActivity.txt "museum"] none]
          (OrigItinerary.mk [] [0])
          (DisruptionReport.mk
            [Disruption.mk .flight_delayed .medium "2024-06-01"
              "Flight delayed by 5 hours" ["flight"]]
            30 [] false)).1
        [0] ≠
      readSchedule
        [SchedDay.mk 1 "2024-06-01"
          [SchedActivity.txt "breakfast", SchedActivity.txt "museum"] none]
        [0] := by
  decide

/-! ## Currency converter agent (`currency_converter_agent.py`) -/

/-- ASCII uppercase of one character (`str.upper` on the ASCII currency
codes involved). -/
def upperChar (c : Char) : Char :=
  if 'a' ≤ c ∧ c ≤ 'z' then Char.ofNat (c.toNat - 32) else c

/-- Embedding of `str.upper`. -/
def strUpper (s : String) : String :=
  String.mk (s.data.map upperChar)

/-- The static `EXCHANGE_RATES` table (rates to INR), as a lookup. -/
def EXCHANGE_RATES (c : String) : Option ℚ :=
  match c with
  | "USD" => some (8312/100)
  | "EUR" => some (9045/100)
  | "GBP" => some (10532/100)
  | "JPY" => some (56/100)
  | "INR" => some 1
  | "AUD" => some (5423/100)
  | "CAD" => some (6145/100)
  | "CHF" => some (9567/100)
  | "CNY" => some (1154/100)
  | "AED" => some (2263/100)
  | "SGD" => some (6189/100)
  | "MYR" => some (1867/100)
  | "THB" => some (235/100)
  | "KRW" => some (63/1000)
  | _ => none

/-- Embedding of `CurrencyConversion` dataclass (wall-clock field omitted). -/
structure CurrencyConversion where
  original_amount : ℚ
  original_currency : String
  converted_amount : ℚ
  converted_currency : String
  exchange_rate : ℚ
deriving DecidableEq, Repr

/-- Embedding of `CurrencyConverterAgent.convert`: route through the INR base —
`amount * rate(from→INR) / rate(to→INR)`, missing codes defaulting to
rate 1.0. -/
def convert (amount : ℚ) (from_currency to_currency : String) :
    CurrencyConversion :=
  let fc := strUpper from_currency
  let tc := strUpper to_currency
  let from_rate := (EXCHANGE_RATES fc).getD 1
  let to_rate := (EXCHANGE_RATES tc).getD 1
  let amount_in_inr := amount * from_rate
  { original_amount := amount
    original_currency := fc
    converted_amount := amount_in_inr / to_rate
    converted_currency := tc
    exchange_rate := from_rate / to_rate }

lemma exchange_rate_pos {c : String} {r : ℚ}
    (h : EXCHANGE_RATES c = some r) : 0 < r := by
  unfold EXCHANGE_RATES at h
  split at h
  any_goals exact Option.noConfusion h
  all_goals injection h with h2
  all_goals subst h2
  all_goals norm_num

/-- C7: for any amount and any two currency codes present in the static
table, the applied rate is `rate(A→base) / rate(B→base)` (base = INR),
the converted amount is the amount times that rate, and the round trip
restores the original amount exactly. -/
theorem convert_round_trip (X : ℚ) (A B : String) (ra rb : ℚ)
    (ha : EXCHANGE_RATES (strUpper A) = some ra)
    (hb : EXCHANGE_RATES (strUpper B) = some rb) :
    (convert X A B).exchange_rate = ra / rb ∧
    (convert X A B).converted_amount = X * ra / rb ∧
    (convert (convert X A B).converted_amount B A).converted_amount = X := by
  have hra : ra ≠ 0 := ne_of_gt (exchange_rate_pos ha)
  have hrb : rb ≠ 0 := ne_of_gt (exchange_rate_pos hb)
  refine ⟨?_, ?_, ?_⟩
  · simp [convert, ha, hb]
  · simp [convert, ha, hb]
  · simp only [convert, ha, hb, Option.getD_some]
    rw [div_mul_cancel₀ _ hrb, mul_div_cancel_right₀ _ hra]

/-- Witness for C7: 100 USD to EUR and back. -/
theorem convert_round_trip_witness :
    (convert 100 "USD" "EUR").exchange_rate = (8312/100) / (9045/100) ∧
    (convert 100 "USD" "EUR").converted_amount =
      100 * (8312/100) / (9045/100) ∧
    (convert (convert 100 "USD" "EUR").converted_amount "EUR" "USD").converted_amount =
      100 :=
  convert_round_trip 100 "USD" "EUR" (8312/100) (9045/100) rfl rfl

/-! ## Budget optimizer agent (`budget_optimizer_agent.py`) -/

/-- Embedding of `BudgetTier` enum. -/
inductive BudgetTier
  | budget
  | mid_range
  | luxury
deriving DecidableEq, Repr

/-- An input option dict of `find_best_value_options`, with the `.get`
defaults applied. -/
structure BudgetOption where
  name : String := "Unknown"
  price : ℚ := 0
  rating : ℚ := 3
  features : List String := []
deriving DecidableEq, Repr

/-- Embedding of `OptimizedOption` dataclass. -/
structure OptimizedOption where
  category : String
  name : String
  price : ℚ
  value_score : ℚ
  savings : ℚ
  features : List String := []
  tier : BudgetTier := BudgetTier.mid_range
deriving DecidableEq, Repr

/-- Embedding of `BudgetOptimizerAgent._determine_tier`. -/
def determine_tier (price avg_price : ℚ) : BudgetTier :=
  if price < avg_price * (7/10) then BudgetTier.budget
  else if price > avg_price * (13/10) then BudgetTier.luxury
  else BudgetTier.mid_range

/-- The `OptimizedOption` built for one admitted candidate in
`find_best_value_options`: value score
`(rating * (len(features) + 1)) / (price if price > 0 else 1)`,
savings `max(0, avg - price)`. -/
def mkOptimized (category : String) (avg_price : ℚ) (o : BudgetOption) :
    OptimizedOption :=
  { category := category
    name := o.name
    price := o.price
    value_score := (o.rating * (o.features.length + 1)) /
      (if o.price > 0 then o.price else 1)
    savings := max 0 (avg_price - o.price)
    features := o.features
    tier := determine_tier o.price avg_price }

/-- Python's stable `list.sort(key = value_score, reverse = True)`:
stable descending insertion sort. -/
def sortByValueDesc (l : List OptimizedOption) : List OptimizedOption :=
  List.insertionSort (fun a b => b.value_score ≤ a.value_score) l

/-- Embedding of `BudgetOptimizerAgent.find_best_value_options`: average the prices,
skip candidates priced above the budget, score the rest, and sort by
value score descending. -/
def find_best_value_options (options : List BudgetOption) (budget : ℚ)
    (category : String) : List OptimizedOption :=
  let avg_price := if options.isEmpty then budget
    else (options.map (fun o => o.price)).sum / options.length
  sortByValueDesc (options.filterMap (fun o =>
    if o.price > budget then none else some (mkOptimized category avg_price o)))

instance : IsTotal OptimizedOption
    (fun a b : OptimizedOption => b.value_score ≤ a.value_score) :=
  ⟨fun a b => le_total b.value_score a.value_score⟩

instance : IsTrans OptimizedOption
    (fun a b : OptimizedOption => b.value_score ≤ a.value_score) :=
  ⟨fun a b c hab hbc => le_trans hbc hab⟩

lemma filterMap_if_eq_map_filter (budget : ℚ) (g : BudgetOption → OptimizedOption)
    (l : List BudgetOption) :
    l.filterMap (fun o => if o.price > budget then none else some (g o)) =
      (l.filter (fun o => decide (o.price ≤ budget))).map g := by
  induction l with
  | nil => rfl
  | cons x rest ih =>
    by_cases hx : x.price > budget
    · rw [List.filterMap_cons, List.filter_cons]
      simp [hx, not_le.mpr hx, ih]
    · rw [List.filterMap_cons, List.filter_cons]
      simp [hx, not_lt.mp hx, ih]

/-- C9 (amended): `find_best_value_options` returns exactly the options
priced at or below the sub-budget (hard cutoff), each scored
`(rating × (feature_count + 1)) / (price if price > 0 else 1)` — the
divisor is the price itself whenever it is positive, falling back to 1
only for non-positive prices — and the result is the stable descending
sort of those scored options by value score. -/
theorem find_best_value_options_spec (options : List BudgetOption)
    (budget : ℚ) (category : String) :
    find_best_value_options options budget category =
      sortByValueDesc
        ((options.filter (fun o => decide (o.price ≤ budget))).map
          (mkOptimized category (if options.isEmpty then budget
            else (options.map (fun o => o.price)).sum / options.length))) ∧
    (find_best_value_options options budget category).Perm
      ((options.filter (fun o => decide (o.price ≤ budget))).map
        (mkOptimized category (if options.isEmpty then budget
          else (options.map (fun o => o.price)).sum / options.length))) ∧
    (find_best_value_options options budget category).Sorted
      (fun a b => b.value_score ≤ a.value_score) ∧
    (∀ o : BudgetOption, ∀ avg : ℚ,
      (mkOptimized category avg o).value_score =
        (o.rating * (o.features.length + 1)) /
          (if o.price > 0 then o.price else 1)) := by
  have heq : find_best_value_options options budget category =
      sortByValueDesc
        ((options.filter (fun o => decide (o.price ≤ budget))).map
          (mkOptimized category (if options.isEmpty then budget
            else (options.map (fun o => o.price)).sum / options.length))) := by
    simp only [find_best_value_options]
    rw [filterMap_if_eq_map_filter]
  refine ⟨heq, ?_, ?_, fun o avg => rfl⟩
  · rw [heq]
    exact List.perm_insertionSort _ _
  · rw [heq]
    exact List.sorted_insertionSort _ _

/-- C9 counterexample: a single option priced 0.5 under a budget of 10
receives value score `(3 × 1) / 0.5 = 6`, not the claim's
`(3 × 1) / max(0.5, 1) = 3`. -/
theorem find_best_value_options_counterexample :
    (find_best_value_options [BudgetOption.mk "cheap" (1/2) 3 []] 10 "x").map
        (fun o => o.value_score) = [6] ∧
    (3 : ℚ) * (([] : List String).length + 1) / max (1/2 : ℚ) 1 = 3 ∧
    (6 : ℚ) ≠ 3 := by
  refine ⟨?_, by norm_num, by norm_num⟩
  have hc : decide ((BudgetOption.mk "cheap" (1/2) 3 []).price ≤ (10 : ℚ)) =
      true := by
    rw [decide_eq_true_eq]
    norm_num [BudgetOption.price]
  simp only [find_best_value_options]
  rw [filterMap_if_eq_map_filter]
  simp only [List.filter_cons, List.filter_nil, hc, if_true, List.map_cons,
    List.map_nil, sortByValueDesc, List.insertionSort, List.orderedInsert]
  simp only [mkOptimized]
  rw [if_pos (by norm_num [BudgetOption.price] :
    (BudgetOption.mk "cheap" (1/2) 3 []).price > 0)]
  norm_num [BudgetOption.rating, BudgetOption.features, BudgetOption.price]

/-! ## Flight agent, hotel agent and concierge (`flight_agent.py`,
`hotel_agent.py`, `attraction_agent.py`, `concierge.py`) -/

/-- Embedding of `FlightOption` dataclass. -/
structure FlightOption where
  airline : String
  departure_city : String
  arrival_city : String
  departure_time : String
  arrival_time : String
  price : ℚ
  duration_hours : ℚ
  stops : ℕ := 0
deriving DecidableEq, Repr

/-- Embedding of `FlightAgent.search_flights` (mock). -/
def search_flights (origin destination departure_date : String)
    (passengers : ℕ) : List FlightOption :=
  [{ airline := "Mock Airlines"
     departure_city := origin
     arrival_city := destination
     departure_time := departure_date ++ "T08:00:00"
     arrival_time := departure_date ++ "T12:00:00"
     price := 350 * (passengers : ℚ)
     duration_hours := 4
     stops := 0 },
   { airline := "Budget Air"
     departure_city := origin
     arrival_city := destination
     departure_time := departure_date ++ "T14:00:00"
     arrival_time := departure_date ++ "T20:00:00"
     price := 200 * (passengers : ℚ)
     duration_hours := 6
     stops := 1 }]

/-- Embedding of `HotelOption` dataclass. -/
structure HotelOption where
  name : String
  location : String
  star_rating : ℕ
  price_per_night : ℚ
  amenities : List String
  guest_rating : ℚ := 0
  room_type : String := "Standard"
deriving DecidableEq, Repr

/-- Embedding of `HotelAgent.search_hotels` (mock). -/
def search_hotels (destination check_in check_out : String)
    (guests rooms : ℕ) : List HotelOption :=
  [{ name := "Grand Hotel"
     location := "Downtown " ++ destination
     star_rating := 5
     price_per_night := 250
     amenities := ["WiFi", "Pool", "Spa", "Restaurant", "Gym"]
     guest_rating := 48/10
     room_type := "Deluxe" },
   { name := "City Inn"
     location := "Central " ++ destination
     star_rating := 3
     price_per_night := 95
     amenities := ["WiFi", "Breakfast", "Parking"]
     guest_rating := 42/10
     room_type := "Standard" },
   { name := "Budget Stay"
     location := destination ++ " Suburbs"
     star_rating := 2
     price_per_night := 55
     amenities := ["WiFi", "Parking"]
     guest_rating := 38/10
     room_type := "Basic" }]

/-- Python's `min(iterable, key = key)` on a non-empty list: the first
element wins ties, later elements replace only when strictly smaller. -/
def minBy (key : HotelOption → ℚ) (best : HotelOption) :
    List HotelOption → HotelOption
  | [] => best
  | h :: t => minBy key (if key h < key best then h else best) t

/-- Python's `max(iterable, key = key)` on a non-empty list. -/
def maxBy (key : HotelOption → ℚ) (best : HotelOption) :
    List HotelOption → HotelOption
  | [] => best
  | h :: t => maxBy key (if key h > key best then h else best) t

/-- Embedding of `HotelAgent.get_best_hotel`. -/
def get_best_hotel (hotels : List HotelOption) (preference : String) :
    Option HotelOption :=
  match hotels with
  | [] => none
  | h :: t =>
    if preference = "price" then some (minBy (fun x => x.price_per_night) h t)
    else if preference = "rating" then
      some (maxBy (fun x => x.guest_rating) h t)
    else if preference = "stars" then
      some (maxBy (fun x => (x.star_rating : ℚ)) h t)
    else some h

/-- Embedding of `HotelAgent.calculate_total_cost`. -/
def calculate_total_cost (hotel : HotelOption) (nights : ℤ)
    (rooms : ℕ := 1) : ℚ :=
  hotel.price_per_night * (nights : ℚ) * (rooms : ℚ)

/-- Embedding of `AttractionAgent.discover_attractions` (mock): the five fixed
attractions, filtered by category when a non-empty category list is
supplied (`if categories:` treats `None` and `[]` alike), truncated to
`max_results`. -/
def discover_attractions (destination : String)
    (categories : Option (List String)) (max_results : ℕ) :
    List Attraction :=
  let all_attractions : List Attraction :=
    [{ name := destination ++ " Museum of Art"
       category := "museum"
       location := "Cultural District, " ++ destination
       description := "World-renowned art museum with extensive collections"
       rating := 47/10
       price := 25
       duration_hours := 3 },
     { name := destination ++ " Central Park"
       category := "park"
       location := "City Center, " ++ destination
       description := "Beautiful urban park perfect for relaxation"
       rating := 45/10
       price := 0
       duration_hours := 2 },
     { name := "Historic " ++ destination ++ " Tower"
       category := "landmark"
       location := "Old Town, " ++ destination
       description := "Iconic landmark with panoramic city views"
       rating := 48/10
       price := 15
       duration_hours := 3/2 },
     { name := destination ++ " Food Market"
       category := "food"
       location := "Market District, " ++ destination
       description := "Vibrant food market with local specialties"
       rating := 46/10
       price := 0
       duration_hours := 2 },
     { name := destination ++ " Walking Tour"
       category := "tour"
       location := "Various locations, " ++ destination
       description := "Guided walking tour through historic neighborhoods"
       rating := 44/10
       price := 35
       duration_hours := 3 }]
  let filtered := match categories with
    | some cats =>
      if cats.isEmpty then all_attractions
      else all_attractions.filter (fun a => decide (a.category ∈ cats))
    | none => all_attractions
  filtered.take max_results

/-- Embedding of `TravelRequest` dataclass; `attraction_types` stands for
`preferences.get("attraction_types")` (with a falsy `preferences`
yielding `none`), the only preference key the concierge reads. -/
structure TravelRequest where
  destination : String
  start_date : String
  end_date : String
  origin : String := ""
  budget : Option ℚ := none
  attraction_types : Option (List String) := none
  travelers : ℕ := 1
deriving DecidableEq, Repr

/-- A flight dict of `TravelItinerary.flights`. -/
structure FlightDict where
  airline : String
  departure : String
  arrival : String
  price : ℚ
deriving DecidableEq, Repr

/-- An accommodation dict of `TravelItinerary.accommodations`. -/
structure HotelDict where
  name : String
  location : String
  price_per_night : ℚ
  rating : ℚ
deriving DecidableEq, Repr

/-- An attraction dict of `TravelItinerary.attractions`. -/
structure AttractionDict where
  name : String
  category : String
  description : String
  price : ℚ
deriving DecidableEq, Repr

/-- A day dict of `TravelItinerary.daily_schedule`. -/
structure DayDict where
  day : ℕ
  date : String
  activities : List Activity
deriving DecidableEq, Repr

/-- Embedding of `TravelItinerary` dataclass. -/
structure TravelItinerary where
  destination : String
  duration_days : ℤ
  flights : List FlightDict := []
  accommodations : List HotelDict := []
  attractions : List AttractionDict := []
  daily_schedule : List DayDict := []
  total_estimated_cost : ℚ := 0
deriving DecidableEq, Repr

/-- Python's `min` on a non-empty list of numbers: first element, then
replace only on strictly smaller. -/
def pyMinQ (x : ℚ) (l : List ℚ) : ℚ :=
  l.foldl (fun b y => if y < b then y else b) x

/-- Embedding of `TravelConcierge.process_request`; `none` models the `ValueError`
propagated out of `_calculate_duration` on malformed dates. -/
def process_request (request : TravelRequest) : Option TravelItinerary := do
  let duration ← calculate_duration request.start_date request.end_date
  let flights : List FlightDict :=
    if request.origin ≠ "" then
      (search_flights request.origin request.destination request.start_date
        request.travelers).map
        (fun f => { airline := f.airline, departure := f.departure_time,
                    arrival := f.arrival_time, price := f.price })
    else []
  let hotel_options := search_hotels request.destination request.start_date
    request.end_date request.travelers 1
  let accommodations : List HotelDict := hotel_options.map (fun h =>
    { name := h.name, location := h.location,
      price_per_night := h.price_per_night, rating := h.guest_rating })
  let attraction_options := discover_attractions request.destination
    request.attraction_types 10
  let attractions : List AttractionDict := attraction_options.map (fun a =>
    { name := a.name, category := a.category, description := a.description,
      price := a.price })
  let itinerary_obj ← create_itinerary request.destination request.start_date
    request.end_date attraction_options
  let daily_schedule := itinerary_obj.days.map (fun day =>
    { day := day.day_number, date := day.date,
      activities := day.activities : DayDict })
  let flight_cost : ℚ :=
    match flights.map (fun f => f.price) with
    | [] => 0
    | p :: ps => pyMinQ p ps
  let hotel_cost : ℚ :=
    if accommodations.isEmpty then 0
    else match get_best_hotel hotel_options "price" with
      | some best => calculate_total_cost best duration
      | none => 0
  let total := flight_cost + hotel_cost +
    calculate_activities_cost attraction_options
  pure { destination := request.destination
         duration_days := duration
         flights := flights
         accommodations := accommodations
         attractions := attractions
         daily_schedule := daily_schedule
         total_estimated_cost := total }

lemma get_best_hotel_price (destination check_in check_out : String)
    (guests rooms : ℕ) :
    get_best_hotel (search_hotels destination check_in check_out guests rooms)
        "price" =
      some { name := "Budget Stay"
             location := destination ++ " Suburbs"
             star_rating := 2
             price_per_night := 55
             amenities := ["WiFi", "Parking"]
             guest_rating := 38/10
             room_type := "Basic" } := by
  norm_num [search_hotels, get_best_hotel, minBy]

lemma pyMinQ_hotel_display : pyMinQ 250 [95, 55] = (55 : ℚ) := by
  norm_num [pyMinQ]

/-- C1: for a request with well-formed dates and `end > start`, the
returned itinerary's `total_estimated_cost` is: the minimum price over
the returned flights list (0 when `origin` is empty, in which case no
flight search is attempted and the flights list is empty), plus the
price-per-night of the cheapest-by-price hotel among the returned
accommodations multiplied by the inclusive duration in days, plus the
sum of the prices of all discovered attractions. -/
theorem process_request_total_cost (request : TravelRequest) (ds de : Date)
    (hs : parseDate request.start_date = some ds)
    (he : parseDate request.end_date = some de)
    (hlt : toOrdinal ds < toOrdinal de) :
    ∀ it, process_request request = some it →
      (request.origin = "" → it.flights = []) ∧
      it.duration_days = (toOrdinal de : ℤ) - (toOrdinal ds : ℤ) + 1 ∧
      it.total_estimated_cost =
        (match it.flights.map (fun f => f.price) with
         | [] => 0
         | p :: ps => pyMinQ p ps) +
        (match it.accommodations.map (fun h => h.price_per_night) with
         | [] => 0
         | p :: ps => pyMinQ p ps) * (it.duration_days : ℚ) +
        (it.attractions.map (fun a => a.price)).sum := by
  intro it hit
  have hdur : calculate_duration request.start_date request.end_date =
      some ((toOrdinal de : ℤ) - (toOrdinal ds : ℤ) + 1) := by
    simp [calculate_duration, hs, he]
  simp only [process_request, hdur, Option.bind_eq_bind, Option.some_bind,
    create_itinerary_eq request.destination
      (discover_attractions request.destination request.attraction_types 10)
      hs he,
    Option.pure_def, Option.some.injEq] at hit
  subst hit
  refine ⟨?_, rfl, ?_⟩
  · intro horig
    simp [horig]
  · dsimp only
    rw [get_best_hotel_price]
    simp only [search_hotels, calculate_total_cost, calculate_activities_cost,
      List.map_map, List.map_cons, List.map_nil, List.isEmpty_cons,
      Bool.false_eq_true, if_false, Function.comp]
    norm_num [pyMinQ]
    rfl

/-- Witness for C1 at a two-traveler Paris trip from NYC over three
days. -/
theorem process_request_total_cost_witness :
    ∃ it, process_request
        (TravelRequest.mk "Paris" "2024-06-01" "2024-06-03" "NYC"
          none none 2) = some it ∧
      it.duration_days = 3 := by
  have hdur : calculate_duration "2024-06-01" "2024-06-03" =
      some ((toOrdinal ⟨2024, 6, 3⟩ : ℤ) - (toOrdinal ⟨2024, 6, 1⟩ : ℤ) + 1) := by
    simp [calculate_duration,
      (by decide : parseDate "2024-06-01" = some ⟨2024, 6, 1⟩),
      (by decide : parseDate "2024-06-03" = some ⟨2024, 6, 3⟩)]
  obtain ⟨it, hit⟩ : ∃ it, process_request
      (TravelRequest.mk "Paris" "2024-06-01" "2024-06-03" "NYC"
        none none 2) = some it :=
    ⟨_, by
      simp only [process_request, hdur, Option.bind_eq_bind, Option.some_bind,
        create_itinerary_eq "Paris" (discover_attractions "Paris" none 10)
          (by decide : parseDate "2024-06-01" = some ⟨2024, 6, 1⟩)
          (by decide : parseDate "2024-06-03" = some ⟨2024, 6, 3⟩),
        Option.pure_def]
      rfl⟩
  refine ⟨it, hit, ?_⟩
  have h := (process_request_total_cost
    (TravelRequest.mk "Paris" "2024-06-01" "2024-06-03" "NYC" none none 2)
    ⟨2024, 6, 1⟩ ⟨2024, 6, 3⟩ (by decide) (by decide) (by decide) it hit).2.1
  rw [h]
  decide

end SmartTravel
